import Mathlib

/-!
Verification of the telemetry simulation and rolling-window analytics in
`src/live_dashboard.py`.

The Python module is a single Streamlit script.  Its core logic is the
`generate_stream_data` loop: per tick it advances a content/ad-break state
machine, draws a latency sample, builds a `data_packet` dict, trims the
rolling `df2` window to 50 rows, derives the per-row `ad_buffering` flag,
updates the viewer/revenue accumulator, and renders an alert.

Shallow embedding conventions:
* Python floats are modelled as `ℚ`; `round(x, 2)` is modelled by `round2`
  (Python's banker's rounding at two decimals).
* `random.random()` draws are modelled as explicit rational inputs compared
  against the literal thresholds of the source; `random.gauss(200, 20)` is an
  unconstrained rational input (the normal distribution has full support);
  `random.choice("0123456789ABCDEF")` is a `Fin 16` input;
  `random.randint(a, b)` is a natural-number input.
* `datetime.now(timezone.utc).isoformat()` is an explicit string input
  (one clock reading per tick).
* The pandas one-row dataframe built per tick is modelled as a `Row`; the
  session dataframe `df2` as a `List Row`.
-/

/-- `STREAM_ID` constant of the script. -/
def STREAM_ID : String := "nflx_live_event_superbowl_v1"

/-- `SEGMENT_DURATION = 2.0`. -/
def SEGMENT_DURATION : ℚ := 2

/-- `AD_BREAK_DURATION = 30.0`. -/
def AD_BREAK_DURATION : ℚ := 30

/-- `CHAOS_MODE = True`. -/
def CHAOS_MODE : Bool := true

/-- Python `round` to an integer: round-half-to-even (banker's rounding). -/
def pyRoundInt (q : ℚ) : ℤ :=
  if q - Int.floor q < 1/2 then Int.floor q
  else if q - Int.floor q > 1/2 then Int.floor q + 1
  else if Int.floor q % 2 = 0 then Int.floor q else Int.floor q + 1

/-- Python `round(x, 2)`. -/
def round2 (q : ℚ) : ℚ := (pyRoundInt (100 * q) : ℚ) / 100

/-- The telemetry `data_packet` dict built once per tick (lines 143-150).
`scte35_payload` holds the already-stringified field: the generated hex token
or the literal `"null"`. -/
structure DataPacket where
  stream_id : String
  timestamp : String
  seq_id : ℕ
  event : String
  scte35_payload : String
  latency_ms : ℚ
deriving DecidableEq

/-- A row of the rolling dataframe `df2`: the packet columns plus the two
derived columns `ad_buffering` (line 160) and `time_only` (line 172). -/
structure Row where
  stream_id : String
  timestamp : String
  seq_id : ℕ
  event : String
  scte35_payload : String
  latency_ms : ℚ
  ad_buffering : Bool
  time_only : String
deriving DecidableEq

/-- Line 159: `is_buffering = (df['latency_ms'] >= 1000) & (df['event'] == 'ad_playing')`. -/
def is_buffering (p : DataPacket) : Bool :=
  decide (1000 ≤ p.latency_ms) && (p.event == "ad_playing")

/-- Line 172: `df['timestamp'].dt.strftime('%H:%M:%S')` applied to the parsed
ISO-8601 timestamp (`YYYY-MM-DDTHH:MM:SS...`): the eight characters starting
at offset 11. -/
def time_only_of (t : String) : String := (t.drop 11).take 8

/-- The one-row dataframe `df` built from a packet (lines 156-160, 172). -/
def processRow (p : DataPacket) : Row :=
  { stream_id := p.stream_id
    timestamp := p.timestamp
    seq_id := p.seq_id
    event := p.event
    scte35_payload := p.scte35_payload
    latency_ms := p.latency_ms
    ad_buffering := is_buffering p
    time_only := time_only_of p.timestamp }

/-- Lines 153-154 and 173: trim `df2` to at most 49 rows when it has reached
50, then append the new row. -/
def stepWindow (w : List Row) (p : DataPacket) : List Row :=
  (if 50 ≤ w.length then w.drop 1 else w) ++ [processRow p]

/-- The rolling window `df2` after ingesting a sequence of packets, starting
from the empty dataframe of line 100. -/
def windowOf (ps : List DataPacket) : List Row := ps.foldl stepWindow []

/-- State carried across iterations of the `generate_stream_data` loop
(lines 111-113): `sequence_number`, `in_ad_break`, `ad_break_remaining`. -/
structure SimState where
  sequence_number : ℕ
  in_ad_break : Bool
  ad_break_remaining : ℚ
deriving DecidableEq

/-- The random draws one loop iteration may consume.  `uTrigger`, `uSigFail`,
`uChaos` model `random.random()` outputs (compared against 0.10, 0.20, 0.30);
`gauss` models `random.gauss(200, 20)` (unconstrained: the normal distribution
has full support); `hex` models the eight `random.choice("0123456789ABCDEF")`
draws of the payload generator. -/
structure TickDraw where
  uTrigger : ℚ
  uSigFail : ℚ
  hex : Fin 8 → Fin 16
  gauss : ℚ
  uChaos : ℚ

/-- One `random.choice("0123456789ABCDEF")` outcome. -/
def hexChar (i : Fin 16) : Char := "0123456789ABCDEF".data.getD i ' '

/-- Lines 106-107: `"0xFC30" + "".join([random.choice("0123456789ABCDEF") for _ in range(8)])`. -/
def generate_scte35_payload_mock (hex : Fin 8 → Fin 16) : String :=
  String.mk ("0xFC30".data ++ List.ofFn (fun i => hexChar (hex i)))

/-- Line 148: `scte35_payload if scte35_payload else "null"` (Python
truthiness: `None` and the empty string are falsy). -/
def storedPayload : Option String → String
  | none => "null"
  | some s => if s = "" then "null" else s

/-- Lines 139-141: `latency_ms = random.gauss(200, 20)`, then
`if CHAOS_MODE and segment_type == "ad" and random.random() < 0.30:
latency_ms += 2000`.  `gauss` is the raw sample, `segIsAd` whether
`segment_type == "ad"`, `spike` the outcome of the 0.30 roll.  The sample is
used as drawn: the source applies no clipping. -/
def tickLatency (gauss : ℚ) (segIsAd spike : Bool) : ℚ :=
  if CHAOS_MODE && segIsAd && spike then gauss + 2000 else gauss

/-- One iteration of the `generate_stream_data` loop body (lines 115-150),
producing the tick's `data_packet` and the successor loop state.  `now` is
this tick's `datetime.now(timezone.utc).isoformat()` reading. -/
def generate_stream_data_tick (s : SimState) (d : TickDraw) (now : String) :
    DataPacket × SimState :=
  if s.in_ad_break then
    let rem := s.ad_break_remaining - SEGMENT_DURATION
    let ev := if rem ≤ 0 then "ad_complete" else "ad_playing"
    let lat := tickLatency d.gauss true (decide (d.uChaos < 3/10))
    ({ stream_id := STREAM_ID
       timestamp := now
       seq_id := s.sequence_number
       event := ev
       scte35_payload := storedPayload none
       latency_ms := round2 lat },
     { sequence_number := s.sequence_number + 1
       in_ad_break := !decide (rem ≤ 0)
       ad_break_remaining := rem })
  else if decide (d.uTrigger < 1/10) then
    let payload : Option String :=
      if CHAOS_MODE && decide (d.uSigFail < 2/10) then none
      else some (generate_scte35_payload_mock d.hex)
    ({ stream_id := STREAM_ID
       timestamp := now
       seq_id := s.sequence_number
       event := "scte35_trigger"
       scte35_payload := storedPayload payload
       latency_ms := round2 (tickLatency d.gauss false false) },
     { sequence_number := s.sequence_number + 1
       in_ad_break := true
       ad_break_remaining := AD_BREAK_DURATION })
  else
    ({ stream_id := STREAM_ID
       timestamp := now
       seq_id := s.sequence_number
       event := "content_playing"
       scte35_payload := storedPayload none
       latency_ms := round2 (tickLatency d.gauss false false) },
     { sequence_number := s.sequence_number + 1
       in_ad_break := false
       ad_break_remaining := s.ad_break_remaining })

/-- The first `n` packets the loop emits, given per-tick random draws and
clock readings (indexed by tick number). -/
def runSim (s : SimState) (d : ℕ → TickDraw) (c : ℕ → String) : ℕ → List DataPacket
  | 0 => []
  | Nat.succ n =>
    let pr := generate_stream_data_tick s (d 0) (c 0)
    pr.1 :: runSim pr.2 (fun i => d (i + 1)) (fun i => c (i + 1)) n

/-- Loop state on entry to `generate_stream_data` (lines 111-113). -/
def initSim : SimState := ⟨0, false, 0⟩

/-- Session-scoped business accumulator (lines 101-104):
`st.session_state.viewers` and `st.session_state.revenue_lost`. -/
structure Biz where
  viewers : ℤ
  revenue_lost : ℚ
deriving DecidableEq

/-- Initial accumulator: 10000 viewers, $0 revenue at risk (lines 102, 104). -/
def initBiz : Biz := ⟨10000, 0⟩

/-- Lines 163-170: on a buffering tick, subtract `drop_off` viewers
(`random.randint(50, 150)`) and add `drop_off * 0.05` to revenue at risk;
otherwise, when below the 10000 baseline, recover `random.randint(5, 20)`
viewers. -/
def impactStep (s : Biz) (buffering : Bool) (drop recov : ℕ) : Biz :=
  if buffering then
    { viewers := s.viewers - drop, revenue_lost := s.revenue_lost + drop * (5/100) }
  else if s.viewers < 10000 then
    { viewers := s.viewers + recov, revenue_lost := s.revenue_lost }
  else s

/-- The accumulator after a sequence of ticks, each given as
(buffering flag, drop_off draw, recovery draw). -/
def runImpact (s : Biz) (tr : List (Bool × ℕ × ℕ)) : Biz :=
  tr.foldl (fun a t => impactStep a t.1 t.2.1 t.2.2) s

/-- Health/alert states rendered by lines 186-191: `st.error` (CRITICAL),
`st.warning` (DEGRADED), `st.success` (HEALTHY). -/
inductive HealthState where
  | CRITICAL
  | DEGRADED
  | HEALTHY
deriving DecidableEq

/-- Lines 186-191: the `alert_placeholder` update, first match wins.
`buffering` is the current tick's flag, `viewers` the accumulator value after
this tick's impact update, `drop` the tick's `drop_off` draw. -/
def alertOf (buffering : Bool) (viewers : ℤ) (drop : ℕ) : HealthState × String :=
  if buffering then
    (HealthState.CRITICAL,
      "CHURN RISK: Ad Buffering. " ++ toString drop ++ " viewers exited.")
  else if viewers < 9000 then
    (HealthState.DEGRADED, "Viewer count degrading due to poor ad experience.")
  else
    (HealthState.HEALTHY, "Ad Experience: Optimal")

/-- Modelled from the spec: the per-event `signal_failure` predicate of §3
("true iff `event_kind == scte35_trigger` and `signal_payload` is absent"),
which also matches the `is_signal_failure` CASE of the displayed SQL sample
(lines 84-85).  The live Python pipeline computes no such flag; this
definition exists to compare the spec against the code's derived columns. -/
def signal_failure_spec (event_kind : String) (signal_payload : Option String) : Bool :=
  event_kind == "scte35_trigger" && signal_payload.isNone

/-- Modelled from the spec: the per-event `lost_packet` predicate of §3
("true iff the previous ingested event's `sequence_id + 1 != this
sequence_id`").  The Python pipeline computes no such flag; this definition
exists to compare the spec against the code's derived columns. -/
def lost_packet_spec (prev cur : DataPacket) : Bool :=
  !(prev.seq_id + 1 == cur.seq_id)

/-- 51 sequential content packets, to exercise the 50-row window bound. -/
def ps51 : List DataPacket :=
  (List.range 51).map fun i =>
    { stream_id := STREAM_ID
      timestamp := "2026-01-01T00:00:00+00:00"
      seq_id := i
      event := "content_playing"
      scte35_payload := "null"
      latency_ms := 200 }

/-- One further packet arriving after `ps51`. -/
def pW : DataPacket :=
  ⟨STREAM_ID, "2026-01-01T00:01:42+00:00", 51, "content_playing", "null", 200⟩

/-- A draw stream on which the 0.10 ad trigger never fires and no chaos roll
succeeds (all uniform draws read 1). -/
def dNoTrig : ℕ → TickDraw :=
  fun _ => ⟨1, 1, fun _ => 0, 200, 1⟩

/-- A constant clock stream. -/
def clockA : ℕ → String := fun _ => "2026-01-01T00:00:00+00:00"

/-- A clock stream two seconds later than `clockA`. -/
def clockB : ℕ → String := fun _ => "2026-01-01T00:00:02+00:00"

/-- First packet of the `dNoTrig`/`clockA` run. -/
def pA : DataPacket :=
  ⟨STREAM_ID, "2026-01-01T00:00:00+00:00", 0, "content_playing", "null", 200⟩

/-- Second packet of the `dNoTrig`/`clockA` run. -/
def pB : DataPacket :=
  ⟨STREAM_ID, "2026-01-01T00:00:00+00:00", 1, "content_playing", "null", 200⟩

/-- An `scte35_trigger` packet whose payload generation failed: the stored
field is the literal string `"null"`. -/
def pTrigFail : DataPacket :=
  ⟨STREAM_ID, "2026-01-01T00:00:00+00:00", 3, "scte35_trigger", "null", 200⟩

/-- An `scte35_trigger` packet carrying a generated payload token. -/
def pTrigOk : DataPacket :=
  ⟨STREAM_ID, "2026-01-01T00:00:00+00:00", 3, "scte35_trigger",
    generate_scte35_payload_mock (fun _ => 0), 200⟩

/-- A previously ingested packet with `seq_id = 0`. -/
def pPrev : DataPacket :=
  ⟨STREAM_ID, "2026-01-01T00:00:00+00:00", 0, "content_playing", "null", 200⟩

/-- A next packet with a sequence gap (`seq_id` jumps 0 → 5). -/
def pGap : DataPacket :=
  ⟨STREAM_ID, "2026-01-01T00:00:02+00:00", 5, "content_playing", "null", 200⟩

/-- A next packet with the expected `seq_id = 1`. -/
def pOk : DataPacket :=
  ⟨STREAM_ID, "2026-01-01T00:00:02+00:00", 1, "content_playing", "null", 200⟩

/-- An externally injected malformed packet: negative latency and an
unrecognized event kind. -/
def badPacket : DataPacket :=
  ⟨"injected_stream", "2026-01-01T00:00:00+00:00", 7, "bogus_kind", "null", -5⟩

/-- A well-formed packet arriving after `badPacket`. -/
def goodPacket : DataPacket :=
  ⟨STREAM_ID, "2026-01-01T00:00:02+00:00", 8, "content_playing", "null", 200⟩

/-- First packet of the `dNoTrig`/`clockB` run: identical to `pA` except for
the wall-clock timestamp. -/
def pA2 : DataPacket :=
  ⟨STREAM_ID, "2026-01-01T00:00:02+00:00", 0, "content_playing", "null", 200⟩

/-- A clock stream that agrees with `clockA` on tick 0 but is a different
function. -/
def clockC : ℕ → String :=
  fun i => if i = 0 then "2026-01-01T00:00:00+00:00" else "2026-01-01T09:09:09+00:00"

theorem stepWindow_eq_of_lt {w : List Row} (p : DataPacket) (h : w.length < 50) :
    stepWindow w p = w ++ [processRow p] := by
  unfold stepWindow
  rw [if_neg (by omega)]

theorem stepWindow_eq_of_ge {w : List Row} (p : DataPacket) (h : 50 ≤ w.length) :
    stepWindow w p = w.drop 1 ++ [processRow p] := by
  unfold stepWindow
  rw [if_pos h]

theorem windowOf_append (ps : List DataPacket) (p : DataPacket) :
    windowOf (ps ++ [p]) = stepWindow (windowOf ps) p := by
  unfold windowOf
  rw [List.foldl_append]
  rfl

/-- Characterization of the window: it always holds the most recent
`min length 50` packets, processed, in arrival order. -/
theorem windowOf_eq (ps : List DataPacket) :
    windowOf ps = (ps.drop (ps.length - 50)).map processRow := by
  induction ps using List.reverseRecOn with
  | nil => rfl
  | append_singleton ps p ih =>
    rw [windowOf_append, ih]
    by_cases h : ps.length < 50
    · have h0 : ps.length - 50 = 0 := by omega
      have h1 : (ps ++ [p]).length - 50 = 0 := by simp; omega
      rw [h0, h1, List.drop_zero, List.drop_zero, List.map_append,
        stepWindow_eq_of_lt p (by simpa using h)]
      simp
    · push_neg at h
      have hlen : ((ps.drop (ps.length - 50)).map processRow).length = 50 := by
        simp; omega
      rw [stepWindow_eq_of_ge p (by omega)]
      have hd : ((ps.drop (ps.length - 50)).map processRow).drop 1
          = (ps.drop (ps.length - 49)).map processRow := by
        rw [← List.map_drop, List.drop_drop]
        have h49 : ps.length - 50 + 1 = ps.length - 49 := by omega
        rw [h49]
      have hk : (ps ++ [p]).length - 50 = ps.length - 49 := by
        rw [List.length_append, List.length_singleton]
        omega
      rw [hd, hk, List.drop_append_of_le_length (by omega), List.map_append,
        List.map_singleton]

theorem windowOf_length (ps : List DataPacket) :
    (windowOf ps).length = min ps.length 50 := by
  rw [windowOf_eq, List.length_map, List.length_drop]
  omega

theorem impactStep_revenue_mono (s : Biz) (b : Bool) (dr rec : ℕ) :
    s.revenue_lost ≤ (impactStep s b dr rec).revenue_lost := by
  unfold impactStep
  split
  · simp
  · split <;> simp

theorem impactStep_revenue_cases (s : Biz) (b : Bool) (dr rec : ℕ) :
    (impactStep s b dr rec).revenue_lost = s.revenue_lost ∨
    (impactStep s b dr rec).revenue_lost = s.revenue_lost + (dr : ℚ) * (5/100) := by
  unfold impactStep
  split
  · right; rfl
  · split <;> (left; rfl)

theorem runImpact_revenue_mono (tr : List (Bool × ℕ × ℕ)) :
    ∀ s : Biz, s.revenue_lost ≤ (runImpact s tr).revenue_lost := by
  induction tr with
  | nil => intro s; exact le_refl _
  | cons t ts ih =>
    intro s
    calc s.revenue_lost ≤ (impactStep s t.1 t.2.1 t.2.2).revenue_lost :=
          impactStep_revenue_mono s t.1 t.2.1 t.2.2
      _ ≤ (runImpact (impactStep s t.1 t.2.1 t.2.2) ts).revenue_lost := ih _
      _ = (runImpact s (t :: ts)).revenue_lost := rfl

/-- C1. For every ingested event, the derived `ad_buffering` flag is true iff
the event kind is `ad_playing` and `latency_ms >= 1000`; at the boundary,
latency 999.99 yields false and latency 1000.0 yields true. -/
theorem buffering_iff_ad_and_high_latency :
    (∀ p : DataPacket, is_buffering p = true ↔
      (p.event = "ad_playing" ∧ 1000 ≤ p.latency_ms)) ∧
    is_buffering
      ⟨STREAM_ID, "2026-01-01T00:00:00+00:00", 0, "ad_playing", "null", 99999/100⟩
      = false ∧
    is_buffering
      ⟨STREAM_ID, "2026-01-01T00:00:00+00:00", 0, "ad_playing", "null", 1000⟩
      = true := by
  refine ⟨fun p => ?_, by norm_num [is_buffering], by norm_num [is_buffering]⟩
  unfold is_buffering
  rw [Bool.and_eq_true, decide_eq_true_iff, beq_iff_eq]
  tauto

/-- C5. `revenue_at_risk` (`st.session_state.revenue_lost`) never decreases:
each tick leaves it unchanged or adds `drop_off * 0.05`, it is non-decreasing
along every session, and from the initial value 0 it stays non-negative. -/
theorem revenue_lost_monotone_nonneg :
    (∀ (s : Biz) (b : Bool) (dr rec : ℕ),
      s.revenue_lost ≤ (impactStep s b dr rec).revenue_lost ∧
      ((impactStep s b dr rec).revenue_lost = s.revenue_lost ∨
       (impactStep s b dr rec).revenue_lost = s.revenue_lost + (dr : ℚ) * (5/100))) ∧
    (∀ (s : Biz) (tr : List (Bool × ℕ × ℕ)),
      s.revenue_lost ≤ (runImpact s tr).revenue_lost) ∧
    (∀ tr : List (Bool × ℕ × ℕ), 0 ≤ (runImpact initBiz tr).revenue_lost) := by
  refine ⟨fun s b dr rec => ⟨impactStep_revenue_mono s b dr rec,
      impactStep_revenue_cases s b dr rec⟩,
    fun s tr => runImpact_revenue_mono tr s, fun tr => ?_⟩
  have h := runImpact_revenue_mono tr initBiz
  simpa [initBiz] using h

/-- C6. The alert derivation of lines 186-191 follows the priority order
buffering → CRITICAL, else viewers < 9000 → DEGRADED, else HEALTHY, first
match winning. -/
theorem alert_priority :
    ∀ (b : Bool) (v : ℤ) (dr : ℕ),
      (b = true → (alertOf b v dr).1 = HealthState.CRITICAL) ∧
      (b = false → v < 9000 → (alertOf b v dr).1 = HealthState.DEGRADED) ∧
      (b = false → 9000 ≤ v → (alertOf b v dr).1 = HealthState.HEALTHY) := by
  intro b v dr
  refine ⟨fun hb => ?_, fun hb hv => ?_, fun hb hv => ?_⟩
  · rw [hb]; rfl
  · rw [hb]
    unfold alertOf
    rw [if_neg (by simp), if_pos hv]
  · rw [hb]
    unfold alertOf
    rw [if_neg (by simp), if_neg (by omega)]

/-- Witness for C6 at concrete inputs: buffering beats a healthy viewer
count, a depressed viewer count without buffering degrades, and a healthy
count without buffering is HEALTHY. -/
theorem alert_priority_witness :
    (alertOf true 9500 100).1 = HealthState.CRITICAL ∧
    (alertOf false 8000 0).1 = HealthState.DEGRADED ∧
    (alertOf false 9500 0).1 = HealthState.HEALTHY :=
  ⟨(alert_priority true 9500 100).1 rfl,
   (alert_priority false 8000 0).2.1 rfl (by omega),
   (alert_priority false 9500 0).2.2 rfl (by omega)⟩

/-- C2. Window bound: after more than 50 ingestions the window holds exactly
50 entries — the most recently ingested 50, processed, in arrival order — and
a new arrival with the window at capacity evicts the oldest entry (index 0)
before insertion. -/
theorem window_bound (ps : List DataPacket) (h : 50 < ps.length) :
    (windowOf ps).length = 50 ∧
    windowOf ps = (ps.drop (ps.length - 50)).map processRow ∧
    ∀ p : DataPacket,
      windowOf (ps ++ [p]) = (windowOf ps).drop 1 ++ [processRow p] := by
  refine ⟨?_, windowOf_eq ps, fun p => ?_⟩
  · rw [windowOf_length]; omega
  · rw [windowOf_append, stepWindow_eq_of_ge]
    rw [windowOf_length]; omega

/-- Witness for C2: 51 concrete ingestions leave exactly the last 50, and a
52nd arrival evicts the head. -/
theorem window_bound_witness :
    50 < ps51.length ∧
    (windowOf ps51).length = 50 ∧
    windowOf ps51 = (ps51.drop (ps51.length - 50)).map processRow ∧
    windowOf (ps51 ++ [pW]) = (windowOf ps51).drop 1 ++ [processRow pW] := by
  have h : 50 < ps51.length := by simp [ps51]
  exact ⟨h, (window_bound ps51 h).1, (window_bound ps51 h).2.1,
    (window_bound ps51 h).2.2 pW⟩

theorem generate_stream_data_tick_seq (s : SimState) (d : TickDraw) (now : String) :
    (generate_stream_data_tick s d now).1.seq_id = s.sequence_number ∧
    (generate_stream_data_tick s d now).2.sequence_number = s.sequence_number + 1 := by
  unfold generate_stream_data_tick
  split
  · exact ⟨rfl, rfl⟩
  · split
    · exact ⟨rfl, rfl⟩
    · exact ⟨rfl, rfl⟩

theorem runSim_map_seq (n : ℕ) :
    ∀ (s : SimState) (d : ℕ → TickDraw) (c : ℕ → String),
      (runSim s d c n).map DataPacket.seq_id
        = (List.range n).map (fun i => s.sequence_number + i) := by
  induction n with
  | zero => intro s d c; rfl
  | succ n ih =>
    intro s d c
    have hseq := generate_stream_data_tick_seq s (d 0) (c 0)
    have hrun : runSim s d c (n + 1)
        = (generate_stream_data_tick s (d 0) (c 0)).1 ::
          runSim (generate_stream_data_tick s (d 0) (c 0)).2
            (fun i => d (i + 1)) (fun i => c (i + 1)) n := rfl
    rw [hrun, List.map_cons, hseq.1, ih]
    simp only [hseq.2]
    rw [List.range_succ_eq_map, List.map_cons, List.map_map]
    congr 1
    apply List.map_congr_left
    intro i _
    simp [Function.comp]
    omega

theorem runSim_seq_from_zero (n : ℕ) (d : ℕ → TickDraw) (c : ℕ → String) :
    (runSim initSim d c n).map DataPacket.seq_id = List.range n := by
  rw [runSim_map_seq]
  simp [initSim]

theorem runSim_seq_at (n : ℕ) (d : ℕ → TickDraw) (c : ℕ → String) (i : ℕ)
    (p : DataPacket) (hp : (runSim initSim d c n)[i]? = some p) : p.seq_id = i := by
  have hm : ((runSim initSim d c n).map DataPacket.seq_id)[i]? = some p.seq_id := by
    rw [List.getElem?_map, hp]
    rfl
  rw [runSim_seq_from_zero] at hm
  have hlt : i < n := by
    by_contra hge
    rw [List.getElem?_eq_none (by simpa using Nat.le_of_not_lt hge)] at hm
    exact Option.noConfusion hm
  rw [List.getElem?_range hlt] at hm
  exact (Option.some.injEq _ _ ▸ hm).symm

theorem round2_200 : round2 200 = 200 := by
  unfold round2 pyRoundInt
  norm_num

theorem runA2 : runSim initSim dNoTrig clockA 2 = [pA, pB] := by
  norm_num [runSim, generate_stream_data_tick, initSim, dNoTrig, clockA,
    tickLatency, CHAOS_MODE, storedPayload, round2_200, pA, pB, STREAM_ID]

/-- C4 counterexample.  The ingestion of lines 152-173 computes no
`lost_packet` flag: its derived columns (`ad_buffering`, `time_only`) are
identical for a packet whose `seq_id` jumps 0 → 5 and one with the expected
`seq_id = 1`, while the spec's `lost_packet` predicate distinguishes the two.
In particular no derived value equals the claimed flag at this input. -/
theorem lost_packet_not_computed :
    lost_packet_spec pPrev pGap = true ∧
    lost_packet_spec pPrev pOk = false ∧
    (processRow pGap).ad_buffering = (processRow pOk).ad_buffering ∧
    (processRow pGap).time_only = (processRow pOk).time_only ∧
    (processRow pGap).ad_buffering = false := by
  refine ⟨by decide, by decide, by decide, rfl, by decide⟩

/-- C4 amended.  No `lost_packet` flag is computed: the per-event derived
columns are insensitive to sequence ids.  Moreover the simulator emits
`seq_id = 0, 1, 2, …` with no gaps, so the spec's `lost_packet` predicate is
false on every pair of consecutive emitted packets (and there is no flag to
set for a first event). -/
theorem lost_packet_amended :
    (∀ p q : DataPacket, p.event = q.event → p.latency_ms = q.latency_ms →
      p.timestamp = q.timestamp →
      (processRow p).ad_buffering = (processRow q).ad_buffering ∧
      (processRow p).time_only = (processRow q).time_only) ∧
    (∀ (n : ℕ) (d : ℕ → TickDraw) (c : ℕ → String),
      (runSim initSim d c n).map DataPacket.seq_id = List.range n) ∧
    (∀ (n : ℕ) (d : ℕ → TickDraw) (c : ℕ → String) (i : ℕ) (p q : DataPacket),
      (runSim initSim d c n)[i]? = some p →
      (runSim initSim d c n)[i + 1]? = some q →
      lost_packet_spec p q = false) := by
  refine ⟨fun p q he hl ht => ?_, runSim_seq_from_zero, fun n d c i p q hp hq => ?_⟩
  · simp [processRow, is_buffering, time_only_of, he, hl, ht]
  · have h1 := runSim_seq_at n d c i p hp
    have h2 := runSim_seq_at n d c (i + 1) q hq
    simp [lost_packet_spec, h1, h2]

/-- Witness for C4 amended, on a concrete two-tick run. -/
theorem lost_packet_amended_witness :
    ((processRow pGap).ad_buffering = (processRow pOk).ad_buffering ∧
      (processRow pGap).time_only = (processRow pOk).time_only) ∧
    (runSim initSim dNoTrig clockA 2)[0]? = some pA ∧
    (runSim initSim dNoTrig clockA 2)[1]? = some pB ∧
    lost_packet_spec pA pB = false := by
  have h0 : (runSim initSim dNoTrig clockA 2)[0]? = some pA := by rw [runA2]; rfl
  have h1 : (runSim initSim dNoTrig clockA 2)[1]? = some pB := by rw [runA2]; rfl
  exact ⟨lost_packet_amended.1 pGap pOk rfl rfl rfl, h0, h1,
    lost_packet_amended.2.2 2 dNoTrig clockA 0 pA pB h0 h1⟩

theorem storedPayload_ne_empty (pay : Option String) : storedPayload pay ≠ "" := by
  cases pay with
  | none => decide
  | some s =>
    simp only [storedPayload]
    split
    · decide
    · assumption

theorem generate_stream_data_tick_payload (s : SimState) (d : TickDraw) (now : String) :
    (generate_stream_data_tick s d now).1.scte35_payload ≠ "" ∧
    ((generate_stream_data_tick s d now).1.scte35_payload = "null" ∨
      ∃ hx, (generate_stream_data_tick s d now).1.scte35_payload
        = generate_scte35_payload_mock hx) := by
  unfold generate_stream_data_tick
  split
  · exact ⟨storedPayload_ne_empty none, Or.inl rfl⟩
  · split
    · refine ⟨storedPayload_ne_empty _, ?_⟩
      by_cases hch : (CHAOS_MODE && decide (d.uSigFail < 2/10)) = true
      · simp only [hch, if_true]
        exact Or.inl rfl
      · simp only [hch, if_false, Bool.false_eq_true]
        simp only [storedPayload]
        split
        · exact Or.inl rfl
        · exact Or.inr ⟨d.hex, rfl⟩
    · exact ⟨storedPayload_ne_empty none, Or.inl rfl⟩

theorem runSim_payload (n : ℕ) :
    ∀ (s : SimState) (d : ℕ → TickDraw) (c : ℕ → String) (p : DataPacket),
      p ∈ runSim s d c n →
      p.scte35_payload ≠ "" ∧
      (p.scte35_payload = "null" ∨
        ∃ hx, p.scte35_payload = generate_scte35_payload_mock hx) := by
  induction n with
  | zero => intro s d c p hp; exact absurd hp (List.not_mem_nil p)
  | succ n ih =>
    intro s d c p hp
    rcases List.mem_cons.mp hp with h | h
    · rw [h]
      exact generate_stream_data_tick_payload s (d 0) (c 0)
    · exact ih _ _ _ p h

/-- C10.  Every emitted packet's `scte35_payload` field is a non-empty
string: either the literal `"null"` (payload absent) or a generated
`"0xFC30"`-prefixed token of length 14.  The stored field has type `String`,
never an actual null/absent value, so a consumer testing the field for real
null can never observe an absent payload. -/
theorem scte35_payload_never_null :
    (∀ (n : ℕ) (d : ℕ → TickDraw) (c : ℕ → String) (p : DataPacket),
      p ∈ runSim initSim d c n →
      p.scte35_payload ≠ "" ∧
      (p.scte35_payload = "null" ∨
        ∃ hx, p.scte35_payload = generate_scte35_payload_mock hx)) ∧
    (∀ hx : Fin 8 → Fin 16, (generate_scte35_payload_mock hx).length = 14) := by
  refine ⟨fun n d c p hp => runSim_payload n initSim d c p hp, fun hx => ?_⟩
  unfold generate_scte35_payload_mock
  simp [String.length, List.length_ofFn]

/-- Witness for C10 at a concrete run and packet. -/
theorem scte35_payload_never_null_witness :
    pA ∈ runSim initSim dNoTrig clockA 2 ∧
    pA.scte35_payload ≠ "" ∧
    (pA.scte35_payload = "null" ∨
      ∃ hx, pA.scte35_payload = generate_scte35_payload_mock hx) :=
  have hm : pA ∈ runSim initSim dNoTrig clockA 2 := by
    rw [runA2]
    exact List.mem_cons_self pA [pB]
  ⟨hm, scte35_payload_never_null.1 2 dNoTrig clockA pA hm⟩

theorem runA1 : runSim initSim dNoTrig clockA 1 = [pA] := by
  norm_num [runSim, generate_stream_data_tick, initSim, dNoTrig, clockA,
    tickLatency, CHAOS_MODE, storedPayload, round2_200, pA, STREAM_ID]

theorem runB1 : runSim initSim dNoTrig clockB 1 = [pA2] := by
  norm_num [runSim, generate_stream_data_tick, initSim, dNoTrig, clockB,
    tickLatency, CHAOS_MODE, storedPayload, round2_200, pA2, STREAM_ID]

/-- C8 counterexample.  Identical configuration and identical random draws do
not give byte-identical event sequences: the packet timestamp is read from
the wall clock (`datetime.now`), not from the seeded source, so two runs
whose clock readings differ by two seconds emit different packets.  (The
script also never takes a seed: all draws come from the ambient `random`
module.) -/
theorem determinism_fails :
    runSim initSim dNoTrig clockA 1 ≠ runSim initSim dNoTrig clockB 1 := by
  rw [runA1, runB1]
  decide

/-- C8 amended.  The emitted sequence is a deterministic function of the
random draws and the per-tick clock readings: two runs fed the same draws
whose clocks agree on the first `n` ticks produce identical `n`-packet
sequences.  Byte-identical output therefore needs the clock fixed as well as
the seed. -/
theorem determinism_amended :
    ∀ (n : ℕ) (s : SimState) (d : ℕ → TickDraw) (c1 c2 : ℕ → String),
      (∀ i, i < n → c1 i = c2 i) →
      runSim s d c1 n = runSim s d c2 n := by
  intro n
  induction n with
  | zero => intro s d c1 c2 _; rfl
  | succ n ih =>
    intro s d c1 c2 h
    have h0 : c1 0 = c2 0 := h 0 (Nat.succ_pos n)
    have e1 : runSim s d c1 (n + 1)
        = (generate_stream_data_tick s (d 0) (c1 0)).1 ::
          runSim (generate_stream_data_tick s (d 0) (c1 0)).2
            (fun i => d (i + 1)) (fun i => c1 (i + 1)) n := rfl
    have e2 : runSim s d c2 (n + 1)
        = (generate_stream_data_tick s (d 0) (c2 0)).1 ::
          runSim (generate_stream_data_tick s (d 0) (c2 0)).2
            (fun i => d (i + 1)) (fun i => c2 (i + 1)) n := rfl
    rw [e1, e2, h0]
    congr 1
    exact ih _ _ _ _ (fun i hi => h (i + 1) (by omega))

/-- Witness for C8 amended: `clockA` and `clockC` are different functions
agreeing on tick 0, and the one-tick runs coincide. -/
theorem determinism_amended_witness :
    (∀ i, i < 1 → clockA i = clockC i) ∧
    runSim initSim dNoTrig clockA 1 = runSim initSim dNoTrig clockC 1 :=
  have hc : ∀ i, i < 1 → clockA i = clockC i := by
    intro i hi
    have h0 : i = 0 := by omega
    rw [h0]
    rfl
  ⟨hc, determinism_amended 1 initSim dNoTrig clockA clockC hc⟩

/-- C9 counterexample.  An externally injected packet with negative latency
and an unrecognized event kind is not rejected: ingestion appends it to the
window like any other packet, and the following packet is processed as
usual.  There is no validation failure channel at all. -/
theorem ingest_no_validation :
    badPacket.latency_ms < 0 ∧
    windowOf [badPacket] = [processRow badPacket] ∧
    windowOf [badPacket, goodPacket]
      = [processRow badPacket, processRow goodPacket] := by
  refine ⟨by norm_num [badPacket], rfl, rfl⟩

/-- C9 amended.  Ingestion performs no validation and is total: every packet,
whatever its latency sign, event kind or timestamp, is processed by the same
code path and appended as the newest window entry, and any later packet is
processed the same way afterwards. -/
theorem ingest_no_validation_amended :
    ∀ (w : List Row) (p q : DataPacket),
      (stepWindow w p).getLast? = some (processRow p) ∧
      (stepWindow (stepWindow w p) q).getLast? = some (processRow q) := by
  intro w p q
  constructor
  · show ((if 50 ≤ w.length then w.drop 1 else w) ++ [processRow p]).getLast?
      = some (processRow p)
    exact List.getLast?_concat _
  · show ((if 50 ≤ (stepWindow w p).length then (stepWindow w p).drop 1
        else stepWindow w p) ++ [processRow q]).getLast? = some (processRow q)
    exact List.getLast?_concat _

/-- C3 counterexample.  The ingestion of lines 152-173 computes no
`signal_failure` flag: at an `scte35_trigger` packet with absent payload
(stored as the literal string `"null"`), where the spec requires
`signal_failure = true`, the only derived flag (`ad_buffering`) is false and
all derived columns coincide with those of a successful trigger — so no
computed value realizes the claimed flag. -/
theorem signal_failure_not_computed :
    signal_failure_spec "scte35_trigger" none = true ∧
    signal_failure_spec "scte35_trigger"
      (some (generate_scte35_payload_mock (fun _ => 0))) = false ∧
    (processRow pTrigFail).ad_buffering = false ∧
    (processRow pTrigOk).ad_buffering = false ∧
    (processRow pTrigFail).ad_buffering = (processRow pTrigOk).ad_buffering ∧
    (processRow pTrigFail).time_only = (processRow pTrigOk).time_only := by
  refine ⟨by decide, by decide, by decide, by decide, by decide, rfl⟩

/-- C3 amended.  No per-event `signal_failure` flag is computed at ingestion
(the only derived flag, `ad_buffering`, ignores the payload); a predicate
with exactly the claimed semantics exists in the repository only as the
`is_signal_failure` CASE of the displayed SQL sample, modelled here as
`signal_failure_spec`: it is true iff the kind is `scte35_trigger` and the
payload is absent. -/
theorem signal_failure_amended :
    (∀ (e : String) (pay : Option String),
      signal_failure_spec e pay = true ↔ (e = "scte35_trigger" ∧ pay = none)) ∧
    (∀ p q : DataPacket, p.event = q.event → p.latency_ms = q.latency_ms →
      (processRow p).ad_buffering = (processRow q).ad_buffering) := by
  constructor
  · intro e pay
    unfold signal_failure_spec
    rw [Bool.and_eq_true, beq_iff_eq, Option.isNone_iff_eq_none]
  · intro p q he hl
    simp [processRow, is_buffering, he, hl]

/-- Witness for C3 amended at concrete inputs. -/
theorem signal_failure_amended_witness :
    signal_failure_spec "scte35_trigger" none = true ∧
    (processRow pTrigFail).ad_buffering = (processRow pTrigOk).ad_buffering :=
  ⟨(signal_failure_amended.1 "scte35_trigger" none).mpr ⟨rfl, rfl⟩,
   signal_failure_amended.2 pTrigFail pTrigOk rfl rfl⟩

/-- C7 counterexample.  The Gaussian latency sample is not clipped: a
negative sample (possible, since the normal distribution has full support)
passes through lines 139-141 unchanged outside an ad break, and the rounded
value stored in the packet is negative. -/
theorem latency_not_clipped :
    tickLatency (-1) false false = -1 ∧
    round2 (tickLatency (-1) false false) < 0 := by
  constructor
  · rfl
  · norm_num [tickLatency, CHAOS_MODE, round2, pyRoundInt]

/-- C7 amended.  `latency_ms` is the raw Gaussian sample plus, only during an
ad break with a successful 0.30 chaos roll, a 2000 penalty: it is
non-negative whenever the sample is, but no clipping is applied — outside the
chaos-penalty case the sample is used exactly as drawn, negative values
included. -/
theorem latency_unclipped :
    ∀ (g : ℚ) (sAd sp : Bool),
      (0 ≤ g → 0 ≤ tickLatency g sAd sp) ∧
      ((sAd && sp) = false → tickLatency g sAd sp = g) := by
  intro g sAd sp
  constructor
  · intro hg
    unfold tickLatency
    split
    · linarith
    · exact hg
  · intro h
    revert h
    cases sAd <;> cases sp <;> simp [tickLatency, CHAOS_MODE]

/-- Witness for C7 amended at concrete inputs. -/
theorem latency_unclipped_witness :
    (0 ≤ (200 : ℚ) ∧ 0 ≤ tickLatency 200 true true) ∧
    ((false && true) = false ∧ tickLatency (-1) false true = -1) :=
  ⟨⟨by norm_num, (latency_unclipped 200 true true).1 (by norm_num)⟩,
   ⟨rfl, (latency_unclipped (-1) false true).2 rfl⟩⟩
